import Mathlib

/-!
Verification of the `paraxial` package (paraxial optical propagation).

Shallow embedding of `src/paraxial/surfaces.py` and
`src/paraxial/sources.py`: ABCD transfer operators, rays, Gaussian
beams, element constructors, and the Gaussian-beam constructor's
parameter-pair dispatch.  Scalar numeric values are embedded in an
arbitrary field (rationals for exact ray arithmetic, reals for the
trigonometric element constructors, complexes for beam parameters);
Python float infinities that matter to the claims are embedded
explicitly where needed.
-/

/-- A paraxial ray (`sources.Ray`): height `y`, reduced-angle factor `u`,
local refractive index `n`, vacuum wavelength `wvl` (the source calls it
`λ0` and exposes `wvl` as an alias; `λ` is reserved in Lean so the alias
is used as the field name). `GaussianBeam` instances are rays whose
`y`, `u` are complex (`Ray ℂ`). -/
structure Ray (α : Type) where
  y : α
  u : α
  n : α
  wvl : α
  deriving DecidableEq, Repr

/-- An ABCD transfer operator (`surfaces.ABCD`): linear block `A B C D`,
affine misalignment offsets `E F`, entrance and exit indices `n1 n2`. -/
structure ABCD (α : Type) where
  A : α
  B : α
  C : α
  D : α
  E : α
  F : α
  n1 : α
  n2 : α
  deriving DecidableEq, Repr

/-- `ABCD.__init__` (surfaces.py lines 10-20): when `E` (resp. `F`) is not
given it is computed from the misalignment inputs `disp`, `tilt`, `length`
as `E = (1-A)*disp + (length - n1*B)*tilt`, `F = -C*disp + (n2 - n1*D)*tilt`;
an explicitly given `E`/`F` wins. -/
def ABCD.init {α : Type} [Field α] (A B C D n1 n2 disp tilt length : α)
    (Eopt Fopt : Option α) : ABCD α :=
  { A := A, B := B, C := C, D := D
    E := Eopt.getD ((1 - A) * disp + (length - n1 * B) * tilt)
    F := Fopt.getD (-C * disp + (n2 - n1 * D) * tilt)
    n1 := n1, n2 := n2 }

/-- `ABCD.__eq__` (surfaces.py lines 29-37): attribute-wise equality on
`A, B, C, D, E, F` only (indices `n1`, `n2` are not compared). -/
def ABCD.eq {α : Type} (X Y : ABCD α) : Prop :=
  X.A = Y.A ∧ X.B = Y.B ∧ X.C = Y.C ∧ X.D = Y.D ∧ X.E = Y.E ∧ X.F = Y.F

/-- `ABCD.__matmul__` on an `ABCD` right operand (surfaces.py lines 42-49):
2×2 matrix product on `A B C D`, homogeneous-affine combination for `E F`,
`n1` from the right operand, `n2` from the left; the result is built by a
fresh `ABCD(...)` call with `E`, `F` passed explicitly. -/
def ABCD.matmulA {α : Type} [Field α] (X Y : ABCD α) : ABCD α :=
  let A := X.A * Y.A + X.B * Y.C
  let B := X.A * Y.B + X.B * Y.D
  let C := X.C * Y.A + X.D * Y.C
  let D := X.C * Y.B + X.D * Y.D
  let E := X.A * Y.E + X.B * Y.F + X.E
  let F := X.C * Y.E + X.D * Y.F + X.F
  ABCD.init A B C D Y.n1 X.n2 0 0 0 (some E) (some F)

/-- `ABCD.__matmul__` on an `ABCD` right operand together with the
post-call states of both operands.  The source body only reads
`self.*` / `other.*` and constructs a fresh object, so both operands are
unchanged when the call returns. -/
def ABCD.matmulAFull {α : Type} [Field α] (X Y : ABCD α) :
    ABCD α × ABCD α × ABCD α :=
  (X.matmulA Y, X, Y)

/-- `ABCD.__matmul__` on a `Ray` right operand (surfaces.py lines 51-61),
returning the result together with the post-call state of the operand:
`ret = copy.deepcopy(other)` makes an independent copy, and the
subsequent field assignments hit only that copy, never `other`. -/
def ABCD.matmulRay {α : Type} [Field α] (X : ABCD α) (r : Ray α) :
    Ray α × Ray α :=
  let y := X.A * r.y + X.B * r.n * r.u + X.E
  let u := (X.C * r.y + X.D * r.n * r.u + X.F) / X.n2
  let ret := r
  let ret := { ret with y := y }
  let ret := { ret with u := u }
  let ret := { ret with n := X.n2 }
  (ret, r)

/-- The result of applying an ABCD operator to a ray (first component of
`ABCD.matmulRay`). -/
def ABCD.applyRay {α : Type} [Field α] (X : ABCD α) (r : Ray α) : Ray α :=
  (X.matmulRay r).1

/-- The default `ABCD()` operator (surfaces.py line 11 defaults):
`A=1, B=0, C=0, D=1, n1=1, n2=1`, no misalignment, so `E=F=0`. -/
def ABCD.identity {α : Type} [Field α] : ABCD α :=
  ABCD.init 1 0 0 1 1 1 0 0 0 none none

/-- `surfaces.Transfer(t, n)` with no further keyword arguments
(surfaces.py lines 128-130): `super().__init__(1, t/n, 0, 1)`, so
`n1`, `n2`, `disp`, `tilt`, `length` keep the base-class defaults. -/
def Transfer {α : Type} [Field α] (t n : α) : ABCD α :=
  ABCD.init 1 (t / n) 0 1 1 1 0 0 0 none none

/-- `surfaces.ThinLens(f)` with no further keyword arguments
(surfaces.py lines 240-242): `super().__init__(1, 0, -1/f, 1)`. -/
def ThinLens {α : Type} [Field α] (f : α) : ABCD α :=
  ABCD.init 1 0 (-1 / f) 1 1 1 0 0 0 none none

/-- C1: applying an ABCD operator `X` to a ray or Gaussian beam `r`
(any field of scalars, covering real-valued rays and complex-valued
beams) yields `y' = A*y + B*n*u + E`, `u' = (C*y + D*n*u + F)/n2`,
`n' = X.n2`, and the wavelength `λ0` preserved, where `n` is the ray's
own stored index. -/
theorem abcd_applyRay_spec {α : Type} [Field α] (X : ABCD α) (r : Ray α) :
    (X.applyRay r).y = X.A * r.y + X.B * r.n * r.u + X.E ∧
    (X.applyRay r).u = (X.C * r.y + X.D * r.n * r.u + X.F) / X.n2 ∧
    (X.applyRay r).n = X.n2 ∧
    (X.applyRay r).wvl = r.wvl := by
  refine ⟨rfl, rfl, rfl, rfl⟩

/-- C7: the plain (non-augmented) application of an ABCD operator to a
ray leaves the operand's stored `y`, `u`, `n`, `λ0` exactly as they
were: the second component of `ABCD.matmulRay` is the operand's
post-call state. -/
theorem abcd_applyRay_frame {α : Type} [Field α] (X : ABCD α) (r : Ray α) :
    (X.matmulRay r).2.y = r.y ∧
    (X.matmulRay r).2.u = r.u ∧
    (X.matmulRay r).2.n = r.n ∧
    (X.matmulRay r).2.wvl = r.wvl := by
  refine ⟨rfl, rfl, rfl, rfl⟩

/-- C2: composition `X @ Y` of two ABCD operators produces the
documented coefficients, takes `n1` from the right operand and `n2`
from the left, and leaves both operands' attributes unmodified. -/
theorem abcd_matmulA_spec {α : Type} [Field α] (X Y : ABCD α) :
    (X.matmulA Y).A = X.A * Y.A + X.B * Y.C ∧
    (X.matmulA Y).B = X.A * Y.B + X.B * Y.D ∧
    (X.matmulA Y).C = X.C * Y.A + X.D * Y.C ∧
    (X.matmulA Y).D = X.C * Y.B + X.D * Y.D ∧
    (X.matmulA Y).E = X.A * Y.E + X.B * Y.F + X.E ∧
    (X.matmulA Y).F = X.C * Y.E + X.D * Y.F + X.F ∧
    (X.matmulA Y).n1 = Y.n1 ∧
    (X.matmulA Y).n2 = X.n2 ∧
    (X.matmulAFull Y).2.1 = X ∧
    (X.matmulAFull Y).2.2 = Y := by
  refine ⟨rfl, rfl, rfl, rfl, rfl, rfl, rfl, rfl, rfl, rfl⟩

/-- C3: composition of ABCD operators is associative on the coefficients
`A, B, C, D, E, F`, and the identity operator
(`A=1, B=0, C=0, D=1, E=0, F=0`) is a left and right unit for them. -/
theorem abcd_matmulA_assoc_id {α : Type} [Field α] (X Y Z : ABCD α) :
    ABCD.eq ((X.matmulA Y).matmulA Z) (X.matmulA (Y.matmulA Z)) ∧
    ABCD.eq (X.matmulA ABCD.identity) X ∧
    ABCD.eq (ABCD.identity.matmulA X) X := by
  refine ⟨⟨?_, ?_, ?_, ?_, ?_, ?_⟩, ⟨?_, ?_, ?_, ?_, ?_, ?_⟩,
    ⟨?_, ?_, ?_, ?_, ?_, ?_⟩⟩ <;>
    simp [ABCD.matmulA, ABCD.identity, ABCD.init] <;> ring

/-! ### Cardinal points (surfaces.py lines 71-125)

Each property computes a ratio with denominator `C`; Python raises
`ZeroDivisionError` exactly when `C == 0`, and the `except` branch then
returns a fixed infinity (`-math.inf` for `F1`, `P1`, `N1`; `math.inf`
for `f1`, `F2`, `P2`, `N2`, `f2`).  Values are embedded as rationals
(every finite Python float is rational) extended with two infinities. -/

/-- A Python float value that is either finite or one of the two
signed infinities. -/
inductive CardVal : Type
  | fin (x : ℚ)
  | inf
  | ninf
  deriving DecidableEq, Repr

/-- `ABCD.F1` (surfaces.py lines 71-76): `n1*D/C`, or `-inf` on
`ZeroDivisionError`. -/
def ABCD.F1 (X : ABCD ℚ) : CardVal :=
  if X.C = 0 then .ninf else .fin (X.n1 * X.D / X.C)

/-- `ABCD.P1` (surfaces.py lines 78-83): `n1*(D-1)/C`, or `-inf` on
`ZeroDivisionError`. -/
def ABCD.P1 (X : ABCD ℚ) : CardVal :=
  if X.C = 0 then .ninf else .fin (X.n1 * (X.D - 1) / X.C)

/-- `ABCD.N1` (surfaces.py lines 85-90): `(D*n1 - n2)/C`, or `-inf` on
`ZeroDivisionError`. -/
def ABCD.N1 (X : ABCD ℚ) : CardVal :=
  if X.C = 0 then .ninf else .fin ((X.D * X.n1 - X.n2) / X.C)

/-- `ABCD.f1` (surfaces.py lines 92-97): `-n1/C`, or `+inf` on
`ZeroDivisionError`. -/
def ABCD.f1 (X : ABCD ℚ) : CardVal :=
  if X.C = 0 then .inf else .fin (-X.n1 / X.C)

/-- `ABCD.F2` (surfaces.py lines 99-104): `-n2*A/C`, or `+inf` on
`ZeroDivisionError`. -/
def ABCD.F2 (X : ABCD ℚ) : CardVal :=
  if X.C = 0 then .inf else .fin (-X.n2 * X.A / X.C)

/-- `ABCD.P2` (surfaces.py lines 106-111): `n2*(1-A)/C`, or `+inf` on
`ZeroDivisionError`. -/
def ABCD.P2 (X : ABCD ℚ) : CardVal :=
  if X.C = 0 then .inf else .fin (X.n2 * (1 - X.A) / X.C)

/-- `ABCD.N2` (surfaces.py lines 113-118): `(n1 - A*n2)/C`, or `+inf` on
`ZeroDivisionError`. -/
def ABCD.N2 (X : ABCD ℚ) : CardVal :=
  if X.C = 0 then .inf else .fin ((X.n1 - X.A * X.n2) / X.C)

/-- `ABCD.f2` (surfaces.py lines 120-125): `-n2/C`, or `+inf` on
`ZeroDivisionError`. -/
def ABCD.f2 (X : ABCD ℚ) : CardVal :=
  if X.C = 0 then .inf else .fin (-X.n2 / X.C)

/-- An afocal operator (`C = 0`) with `A = 1, B = 0, D = -1, n1 = n2 = 1`,
used to settle C4. -/
def afocalNegD : ABCD ℚ :=
  ABCD.init 1 0 0 (-1) 1 1 0 0 0 none none

/-- C4 counterexample: for this afocal operator the defining ratios of
`F1` (numerator `n1*D = -1`) and `f1` (numerator `-n1 = -1`) are the
same function of `C`, so their limits as `C` approaches `0` agree under
any sign convention — yet the code returns `-inf` for `F1` and `+inf`
for `f1`.  No assignment of "the limiting sign of the defining ratio"
can match both, so the claimed sign policy fails. -/
theorem cardinal_sign_counterexample :
    afocalNegD.C = 0 ∧
    afocalNegD.n1 * afocalNegD.D = -afocalNegD.n1 ∧
    afocalNegD.F1 = CardVal.ninf ∧
    afocalNegD.f1 = CardVal.inf := by
  refine ⟨rfl, by norm_num [afocalNegD, ABCD.init], rfl, rfl⟩

/-- C4 (amended): for every ABCD operator with `C = 0`, each
cardinal-point property returns an infinity of a fixed sign that does
not depend on `A`, `D`, `n1`, `n2` (`-inf` for `F1`, `P1`, `N1`;
`+inf` for `f1`, `F2`, `P2`, `N2`, `f2`), and no division error
occurs. -/
theorem cardinal_points_afocal (X : ABCD ℚ) (h : X.C = 0) :
    X.F1 = CardVal.ninf ∧ X.P1 = CardVal.ninf ∧ X.N1 = CardVal.ninf ∧
    X.f1 = CardVal.inf ∧ X.F2 = CardVal.inf ∧ X.P2 = CardVal.inf ∧
    X.N2 = CardVal.inf ∧ X.f2 = CardVal.inf := by
  simp [ABCD.F1, ABCD.P1, ABCD.N1, ABCD.f1, ABCD.F2, ABCD.P2, ABCD.N2,
    ABCD.f2, h]

/-- Witness for `cardinal_points_afocal` at the concrete afocal
operator `afocalNegD`. -/
theorem cardinal_points_afocal_witness :
    afocalNegD.F1 = CardVal.ninf ∧ afocalNegD.P1 = CardVal.ninf ∧
    afocalNegD.N1 = CardVal.ninf ∧ afocalNegD.f1 = CardVal.inf ∧
    afocalNegD.F2 = CardVal.inf ∧ afocalNegD.P2 = CardVal.inf ∧
    afocalNegD.N2 = CardVal.inf ∧ afocalNegD.f2 = CardVal.inf :=
  cardinal_points_afocal afocalNegD (by decide)

/-- C10: `Transfer(t, n)` built without explicit `n1`/`n2` keyword
arguments has `n1 = 1` and `n2 = 1` (the medium index only scales
`B = t/n`), so applying it to any ray sets the ray's stored index
to `1`. -/
theorem transfer_default_indices {α : Type} [Field α] (t n : α)
    (r : Ray α) (_hn : n ≠ 0) :
    (Transfer t n).n1 = 1 ∧ (Transfer t n).n2 = 1 ∧
    (Transfer t n).B = t / n ∧
    ((Transfer t n).applyRay r).n = 1 := by
  refine ⟨rfl, rfl, rfl, rfl⟩

/-- Witness for `transfer_default_indices` at `t = 3`, `n = 2` over the
rationals, applied to the ray `(y, u, n, λ0) = (1, 2, 5, 4)`. -/
theorem transfer_default_indices_witness :
    (Transfer (3 : ℚ) 2).n1 = 1 ∧ (Transfer (3 : ℚ) 2).n2 = 1 ∧
    (Transfer (3 : ℚ) 2).B = 3 / 2 ∧
    ((Transfer (3 : ℚ) 2).applyRay ⟨1, 2, 5, 4⟩).n = 1 :=
  transfer_default_indices 3 2 ⟨1, 2, 5, 4⟩ (by decide)

/-! ### GaussianBeam construction (sources.py lines 37-84)

The constructor takes optional keyword arguments `q, R, w, z, zR`
(plus `λ0, n, sign`), normalizes `R == 0` to `math.inf`, rejects
`w == 0` and `zR == 0`, and then dispatches on *presence*
(`is not None`) of the arguments, in the order of the `elif` chain, to
one of seven closed-form solvers from the `equations` module; finally
it builds the underlying ray as `Ray(1, 1/(n*qr), n, λ0)`.

The `equations` module is not part of the sources, so the solvers are
kept abstract: a `QSolvers` record carries one function per solver,
with the argument lists of the calls in sources.py lines 68-81, and
the theorems hold for every such record.  Optional finite float inputs
are embedded as rationals (every finite Python float is rational)
extended with the `math.inf` value that the `R`-normalization
produces. -/

/-- A Python float value that can be supplied for `R`, `w`, `z`, `zR`:
finite, or `math.inf`. -/
inductive FloatVal : Type
  | fin (x : ℚ)
  | inf
  deriving DecidableEq, Repr

/-- The two `ValueError`s of `GaussianBeam.__init__`:
`"Invalid argument w or zR"` and
`"No valid configuration for beam found"`. -/
inductive BeamError : Type
  | invalidParam
  | noValidConfig
  deriving DecidableEq, Repr

/-- The closed-form solvers of the `equations` module (not under the
sources; kept abstract), one per parameter pair, with the argument
lists used at sources.py lines 70-81. -/
structure QSolvers (β : Type) where
  q_from_R_w : FloatVal → FloatVal → ℚ → ℚ → β
  q_from_z_zR : FloatVal → FloatVal → ℚ → β
  q_from_R_z : FloatVal → FloatVal → ℚ → β
  q_from_R_zR : FloatVal → FloatVal → ℚ → ℚ → β
  q_from_w_z : FloatVal → FloatVal → ℚ → ℚ → ℚ → β
  q_from_w_zR : FloatVal → FloatVal → ℚ → ℚ → ℚ → β

/-- The keyword arguments of `GaussianBeam.__init__`
(sources.py lines 37-48): `λ0` (field `wvl`), `n`, `sign` always have
values; `q`, `R`, `w`, `z`, `zR` default to `None`. -/
structure BeamArgs (β : Type) where
  wvl : ℚ
  n : ℚ
  sign : ℚ
  q : Option β
  R : Option FloatVal
  w : Option FloatVal
  z : Option FloatVal
  zR : Option FloatVal

/-- The `super().__init__(1, 1/(n * qr), n, λ0)` call
(sources.py line 84): the beam is the ray `(1, 1/(n*qr), n, λ0)`. -/
def GaussianBeam.mkFromQr {β : Type} [Field β] [RatCast β]
    (a : BeamArgs β) (qr : β) : Ray β :=
  ⟨1, 1 / ((a.n : β) * qr), (a.n : β), (a.wvl : β)⟩

/-- `GaussianBeam.__init__` (sources.py lines 60-84): normalize
`R == 0` to `inf`, reject `w == 0` / `zR == 0`, then the `elif` chain
of presence checks in source order, each calling its solver; if no
branch fires, fail with the no-valid-configuration error. -/
def GaussianBeam.init {β : Type} [Field β] [RatCast β]
    (eqns : QSolvers β) (a : BeamArgs β) : Except BeamError (Ray β) :=
  let R : Option FloatVal :=
    match a.R with
    | some Rv => some (if Rv = .fin 0 then .inf else Rv)
    | none => none
  if a.w = some (.fin 0) ∨ a.zR = some (.fin 0) then
    .error .invalidParam
  else
    let qr? : Except BeamError β :=
      match a.q with
      | some qv => .ok (qv / (a.n : β))
      | none =>
        match R, a.w with
        | some Rv, some wv => .ok (eqns.q_from_R_w Rv wv a.wvl a.n)
        | _, _ =>
        match a.z, a.zR with
        | some zv, some zRv => .ok (eqns.q_from_z_zR zv zRv a.n)
        | _, _ =>
        match R, a.z with
        | some Rv, some zv => .ok (eqns.q_from_R_z Rv zv a.n)
        | _, _ =>
        match R, a.zR with
        | some Rv, some zRv => .ok (eqns.q_from_R_zR Rv zRv a.n a.sign)
        | _, _ =>
        match a.w, a.z with
        | some wv, some zv => .ok (eqns.q_from_w_z wv zv a.wvl a.n a.sign)
        | _, _ =>
        match a.w, a.zR with
        | some wv, some zRv =>
            .ok (eqns.q_from_w_zR wv zRv a.wvl a.n a.sign)
        | _, _ => .error .noValidConfig
    qr?.map (GaussianBeam.mkFromQr a)

/-- An arbitrary concrete instantiation of the abstract solver record,
used only to instantiate theorems that are quantified over every
`QSolvers`. -/
def trivSolvers : QSolvers ℚ :=
  ⟨fun _ _ _ _ => 1, fun _ _ _ => 1, fun _ _ _ => 1,
   fun _ _ _ _ => 1, fun _ _ _ _ _ => 1, fun _ _ _ _ _ => 1⟩

/-- C5: GaussianBeam construction fails with the invalid-beam-parameter
error whenever `w == 0` or `zR == 0` is supplied, for every combination
of the other arguments and every solver record; fails with the
no-valid-configuration error when no recognized parameter pair is
supplied (and no degenerate `w`/`zR` triggered the first error); and a
supplied `R == 0` is normalized to `R = inf` before pair matching — the
construction behaves exactly as if `R = inf` had been supplied — rather
than being treated as an error. -/
theorem gaussian_beam_init_errors {β : Type} [Field β] [RatCast β]
    (eqns : QSolvers β) :
    (∀ a : BeamArgs β,
      (a.w = some (.fin 0) ∨ a.zR = some (.fin 0)) →
      GaussianBeam.init eqns a = .error .invalidParam) ∧
    (∀ a : BeamArgs β,
      a.w ≠ some (.fin 0) → a.zR ≠ some (.fin 0) →
      a.q = none →
      (a.R = none ∨ a.w = none) → (a.z = none ∨ a.zR = none) →
      (a.R = none ∨ a.z = none) → (a.R = none ∨ a.zR = none) →
      (a.w = none ∨ a.z = none) → (a.w = none ∨ a.zR = none) →
      GaussianBeam.init eqns a = .error .noValidConfig) ∧
    (∀ a : BeamArgs β,
      a.R = some (.fin 0) →
      GaussianBeam.init eqns a =
        GaussianBeam.init eqns { a with R := some FloatVal.inf }) := by
  refine ⟨?_, ?_, ?_⟩
  · rintro a (h | h) <;> simp [GaussianBeam.init, h]
  · rintro ⟨wvl, n, sg, q, R, w, z, zR⟩ hw hzR hq h1 h2 h3 h4 h5 h6
    dsimp only at hw hzR hq h1 h2 h3 h4 h5 h6
    subst hq
    rcases R with _ | Rv <;> rcases w with _ | wv <;>
      rcases z with _ | zv <;> rcases zR with _ | zRv <;>
      simp_all [GaussianBeam.init, Except.map]
  · rintro ⟨wvl, n, sg, q, R, w, z, zR⟩ hR
    dsimp only at hR
    subst hR
    simp [GaussianBeam.init, GaussianBeam.mkFromQr, Except.map]

/-- Witness for `gaussian_beam_init_errors`: with the concrete solver
record `trivSolvers`, (a) supplying `w = 0` alone raises the
invalid-parameter error, (b) supplying only `w = 1` (no recognized
pair) raises the no-valid-configuration error, (c) supplying `R = 0`
together with `w = 1` behaves exactly as supplying `R = inf`. -/
theorem gaussian_beam_init_errors_witness :
    GaussianBeam.init trivSolvers
      ⟨1, 1, 1, none, none, some (.fin 0), none, none⟩ =
      .error .invalidParam ∧
    GaussianBeam.init trivSolvers
      ⟨1, 1, 1, none, none, some (.fin 1), none, none⟩ =
      .error .noValidConfig ∧
    GaussianBeam.init trivSolvers
      ⟨1, 1, 1, none, some (.fin 0), some (.fin 1), none, none⟩ =
      GaussianBeam.init trivSolvers
        ⟨1, 1, 1, none, some FloatVal.inf, some (.fin 1), none, none⟩ :=
  ⟨(gaussian_beam_init_errors trivSolvers).1 _ (Or.inl rfl),
   (gaussian_beam_init_errors trivSolvers).2.1 _ (by decide) (by decide)
     rfl (Or.inl rfl) (Or.inl rfl) (Or.inl rfl) (Or.inl rfl)
     (Or.inr rfl) (Or.inr rfl),
   (gaussian_beam_init_errors trivSolvers).2.2 _ rfl⟩

/-- C6: the solver branch of `GaussianBeam.__init__` is chosen by
presence (`is not None`) checks in the precedence order
`q > (R,w) > (z,zR) > (R,z) > (R,zR) > (w,z) > (w,zR)`; a supplied
value of `0` (such as `R = 0`, normalized to `inf`, or `z = 0`) counts
as present.  Each conjunct states one branch: its presence conditions,
the absence of every higher-priority pair, and the resulting beam built
from that branch's solver; lower-priority arguments are left
unconstrained wherever the higher-priority match wins regardless. -/
theorem gaussian_beam_init_branches {β : Type} [Field β] [RatCast β]
    (eqns : QSolvers β) :
    (∀ (a : BeamArgs β) (qv : β),
      a.q = some qv → a.w ≠ some (.fin 0) → a.zR ≠ some (.fin 0) →
      GaussianBeam.init eqns a =
        .ok (GaussianBeam.mkFromQr a (qv / (a.n : β)))) ∧
    (∀ (a : BeamArgs β) (Rv wv : FloatVal),
      a.q = none → a.R = some Rv → a.w = some wv →
      wv ≠ .fin 0 → a.zR ≠ some (.fin 0) →
      GaussianBeam.init eqns a =
        .ok (GaussianBeam.mkFromQr a
          (eqns.q_from_R_w (if Rv = .fin 0 then .inf else Rv) wv
            a.wvl a.n))) ∧
    (∀ (a : BeamArgs β) (zv zRv : FloatVal),
      a.q = none → (a.R = none ∨ a.w = none) →
      a.z = some zv → a.zR = some zRv →
      zRv ≠ .fin 0 → a.w ≠ some (.fin 0) →
      GaussianBeam.init eqns a =
        .ok (GaussianBeam.mkFromQr a (eqns.q_from_z_zR zv zRv a.n))) ∧
    (∀ (a : BeamArgs β) (Rv zv : FloatVal),
      a.q = none → a.R = some Rv → a.w = none →
      a.z = some zv → a.zR = none →
      GaussianBeam.init eqns a =
        .ok (GaussianBeam.mkFromQr a
          (eqns.q_from_R_z (if Rv = .fin 0 then .inf else Rv) zv
            a.n))) ∧
    (∀ (a : BeamArgs β) (Rv zRv : FloatVal),
      a.q = none → a.R = some Rv → a.w = none →
      a.z = none → a.zR = some zRv → zRv ≠ .fin 0 →
      GaussianBeam.init eqns a =
        .ok (GaussianBeam.mkFromQr a
          (eqns.q_from_R_zR (if Rv = .fin 0 then .inf else Rv) zRv
            a.n a.sign))) ∧
    (∀ (a : BeamArgs β) (wv zv : FloatVal),
      a.q = none → a.R = none → a.w = some wv → wv ≠ .fin 0 →
      a.z = some zv → a.zR = none →
      GaussianBeam.init eqns a =
        .ok (GaussianBeam.mkFromQr a
          (eqns.q_from_w_z wv zv a.wvl a.n a.sign))) ∧
    (∀ (a : BeamArgs β) (wv zRv : FloatVal),
      a.q = none → a.R = none → a.w = some wv → wv ≠ .fin 0 →
      a.z = none → a.zR = some zRv → zRv ≠ .fin 0 →
      GaussianBeam.init eqns a =
        .ok (GaussianBeam.mkFromQr a
          (eqns.q_from_w_zR wv zRv a.wvl a.n a.sign))) := by
  refine ⟨?_, ?_, ?_, ?_, ?_, ?_, ?_⟩
  · rintro ⟨wvl, n, sg, q, R, w, z, zR⟩ qv hq hw hzR
    dsimp only at hq hw hzR
    subst hq
    simp_all [GaussianBeam.init, Except.map]
  · rintro ⟨wvl, n, sg, q, R, w, z, zR⟩ Rv wv hq hR hw hw0 hzR
    dsimp only at hq hR hw hzR
    subst hq; subst hR; subst hw
    simp_all [GaussianBeam.init, Except.map]
  · rintro ⟨wvl, n, sg, q, R, w, z, zR⟩ zv zRv hq hRw hz hzR hzR0 hw0
    dsimp only at hq hRw hz hzR hw0
    subst hq; subst hz; subst hzR
    rcases hRw with h | h
    · subst h
      rcases w with _ | wv <;> simp_all [GaussianBeam.init, Except.map]
    · subst h
      rcases R with _ | Rv <;> simp_all [GaussianBeam.init, Except.map]
  · rintro ⟨wvl, n, sg, q, R, w, z, zR⟩ Rv zv hq hR hw hz hzR
    dsimp only at hq hR hw hz hzR
    subst hq; subst hR; subst hw; subst hz; subst hzR
    simp_all [GaussianBeam.init, Except.map]
  · rintro ⟨wvl, n, sg, q, R, w, z, zR⟩ Rv zRv hq hR hw hz hzR hzR0
    dsimp only at hq hR hw hz hzR
    subst hq; subst hR; subst hw; subst hz; subst hzR
    simp_all [GaussianBeam.init, Except.map]
  · rintro ⟨wvl, n, sg, q, R, w, z, zR⟩ wv zv hq hR hw hw0 hz hzR
    dsimp only at hq hR hw hz hzR
    subst hq; subst hR; subst hw; subst hz; subst hzR
    simp_all [GaussianBeam.init, Except.map]
  · rintro ⟨wvl, n, sg, q, R, w, z, zR⟩ wv zRv hq hR hw hw0 hz hzR hzR0
    dsimp only at hq hR hw hz hzR
    subst hq; subst hR; subst hw; subst hz; subst hzR
    simp_all [GaussianBeam.init, Except.map]

/-- Witness for `gaussian_beam_init_branches`: with `q` absent,
`R = 0` (normalized to `inf`, still counting as present), `w = 1`,
`z = 0` (also present), and `zR = 2` all supplied, the `(R, w)` branch
wins over `(z, zR)` and the others. -/
theorem gaussian_beam_init_branches_witness :
    GaussianBeam.init trivSolvers
      ⟨1, 1, 1, none, some (.fin 0), some (.fin 1),
        some (.fin 0), some (.fin 2)⟩ =
      .ok (GaussianBeam.mkFromQr
        ⟨1, 1, 1, none, some (.fin 0), some (.fin 1),
          some (.fin 0), some (.fin 2)⟩
        (trivSolvers.q_from_R_w FloatVal.inf (.fin 1) 1 1)) := by
  have h := (gaussian_beam_init_branches trivSolvers).2.1
    ⟨1, 1, 1, none, some (.fin 0), some (.fin 1),
      some (.fin 0), some (.fin 2)⟩ (.fin 0) (.fin 1)
    rfl rfl rfl (by decide) (by decide)
  simpa using h

/-! ### Refraction and ThickLens (surfaces.py lines 133-160, 245-253) -/

/-- The `T_or_S` plane selector of the element constructors
(tangential or sagittal; any other string raises `ValueError` and is
not modeled). -/
inductive Plane : Type
  | T
  | S
  deriving DecidableEq, Repr

/-- `surfaces.Refraction(R, n1, n2, AOI, T_or_S)` with no further
keyword arguments (surfaces.py lines 141-160):
`AOE = asin(n1*sin(AOI)/n2)`, `C1 = cos(AOI)`, `C2 = cos(AOE)`; the
tangential branch sets `denominator = C1*C2`, `A = C2/C1`,
`D = C1/C2`, the sagittal branch sets `denominator = 1`, `A = D = 1`;
then `dne = (n2*C2 - n1*C1)/denominator`, `B = 0`, `C = -dne/R`. -/
noncomputable def Refraction (R n1 n2 AOI : ℝ) (plane : Plane) : ABCD ℝ :=
  let AOE := Real.arcsin (n1 * Real.sin AOI / n2)
  let C1 := Real.cos AOI
  let C2 := Real.cos AOE
  let ADden : ℝ × ℝ × ℝ :=
    match plane with
    | .T => (C2 / C1, C1 / C2, C1 * C2)
    | .S => (1, 1, 1)
  let numerator := n2 * C2 - n1 * C1
  let dne := numerator / ADden.2.2
  ABCD.init ADden.1 0 (-dne / R) ADden.2.1 n1 n2 0 0 0 none none

/-- `surfaces.ThickLens(R1, R2, t, n_glass, n_ambient)` with no further
keyword arguments (surfaces.py lines 245-253): the composition
`Refraction(R2, n_glass, n_ambient) @ Transfer(t, n_glass)
@ Refraction(R1, n_ambient, n_glass)` (both refractions at the default
`AOI = 0`, tangential), re-initialized from the net coefficients with
default misalignment (so `E = F = 0`). -/
noncomputable def ThickLens (R1 R2 t n_glass n_ambient : ℝ) : ABCD ℝ :=
  let r1 := Refraction R1 n_ambient n_glass 0 .T
  let tt := Transfer t n_glass
  let r2 := Refraction R2 n_glass n_ambient 0 .T
  let net := (r2.matmulA tt).matmulA r1
  ABCD.init net.A net.B net.C net.D net.n1 net.n2 0 0 0 none none

/-- C8: `ThickLens(R1=10e-3, R2=-10e-3, thickness=0, glassIndex=1.5)`
equals `ThinLens(f=10e-3)` under the operator equality on
`A, B, C, D, E, F`, exactly. -/
theorem thicklens_eq_thinlens :
    ABCD.eq (ThickLens (10e-3) (-10e-3) 0 1.5 1) (ThinLens (10e-3 : ℝ)) := by
  refine ⟨?_, ?_, ?_, ?_, ?_, ?_⟩ <;>
    simp [ThickLens, Refraction, Transfer, ThinLens, ABCD.matmulA,
      ABCD.init, ABCD.eq, Real.sin_zero, Real.arcsin_zero,
      Real.cos_zero] <;>
    norm_num

/-! ### Gaussian beam physical properties and free-space propagation
(sources.py lines 94-125) -/

/-- Modelled from the spec: `equations.q_from_z_zR(z, zR, n)` — the
`equations` module is not under the sources.  Per the spec's data
model, the physical complex beam parameter is `q = z + i*zR` and the
internal reduced parameter is `qr = q/n` (the `q`-branch of the
constructor likewise reduces by dividing by `n`); the repository test
`test_gb_attributes` confirms `u = 1/(z + i*zR)` for `n = 1`. -/
noncomputable def q_from_z_zR (z zR n : ℝ) : ℂ :=
  ((z : ℂ) + (zR : ℂ) * Complex.I) / (n : ℂ)

/-- `GaussianBeam(z=..., zR=...)`: the `(z, zR)` constructor branch
(sources.py lines 72-73) followed by
`super().__init__(1, 1/(n*qr), n, λ0)` (line 84). -/
noncomputable def GaussianBeam.from_z_zR (z zR n wvl : ℝ) : Ray ℂ :=
  let qr := q_from_z_zR z zR n
  ⟨1, 1 / ((n : ℂ) * qr), (n : ℂ), (wvl : ℂ)⟩

/-- `GaussianBeam.q` property (sources.py lines 94-96): `q = y/u`. -/
noncomputable def GaussianBeam.q (b : Ray ℂ) : ℂ := b.y / b.u

/-- `GaussianBeam.z` property (sources.py lines 111-113): `q.real`. -/
noncomputable def GaussianBeam.z (b : Ray ℂ) : ℝ := (GaussianBeam.q b).re

/-- `GaussianBeam.zR` property (sources.py lines 115-117): `q.imag`. -/
noncomputable def GaussianBeam.zR (b : Ray ℂ) : ℝ := (GaussianBeam.q b).im

/-- `GaussianBeam.w0` property (sources.py lines 119-121):
`(λ0 * zR / (n * π)) ** 0.5`; the stored wavelength and index are
real-valued, and on nonnegative reals Python's `** 0.5` is the square
root. -/
noncomputable def GaussianBeam.w0 (b : Ray ℂ) : ℝ :=
  Real.sqrt (b.wvl.re * GaussianBeam.zR b / (b.n.re * Real.pi))

/-- `GaussianBeam.θ` property (sources.py lines 123-125): `w0 / zR`. -/
noncomputable def GaussianBeam.theta (b : Ray ℂ) : ℝ :=
  GaussianBeam.w0 b / GaussianBeam.zR b

/-- Applying a same-medium free-space `Transfer(L)` to a beam with
`y = 1`, `n = 1` and nonzero `u` adds `L` to the physical complex
parameter `q = y/u`. -/
lemma transfer_q_add (L : ℂ) (b : Ray ℂ) (hy : b.y = 1) (hn : b.n = 1)
    (hu : b.u ≠ 0) :
    GaussianBeam.q ((Transfer L 1).applyRay b) = GaussianBeam.q b + L := by
  simp only [GaussianBeam.q, ABCD.applyRay, ABCD.matmulRay, Transfer,
    ABCD.init, Option.getD, hy, hn]
  field_simp

/-- C9: the Gaussian beam built from `z = 10e-3`, `zR = 1e-3` (default
medium `n = 1`, wavelength `532e-9`), propagated through the
free-space `Transfer` of length `L = 100e-3` in the same medium,
satisfies `z' = z + L`, `zR' = zR`, `w0' = w0`, `θ' = θ`. -/
theorem gaussian_beam_free_space :
    GaussianBeam.z
        ((Transfer ((100e-3 : ℝ) : ℂ) 1).applyRay
          (GaussianBeam.from_z_zR 10e-3 1e-3 1 532e-9)) =
      GaussianBeam.z (GaussianBeam.from_z_zR 10e-3 1e-3 1 532e-9)
        + 100e-3 ∧
    GaussianBeam.zR
        ((Transfer ((100e-3 : ℝ) : ℂ) 1).applyRay
          (GaussianBeam.from_z_zR 10e-3 1e-3 1 532e-9)) =
      GaussianBeam.zR (GaussianBeam.from_z_zR 10e-3 1e-3 1 532e-9) ∧
    GaussianBeam.w0
        ((Transfer ((100e-3 : ℝ) : ℂ) 1).applyRay
          (GaussianBeam.from_z_zR 10e-3 1e-3 1 532e-9)) =
      GaussianBeam.w0 (GaussianBeam.from_z_zR 10e-3 1e-3 1 532e-9) ∧
    GaussianBeam.theta
        ((Transfer ((100e-3 : ℝ) : ℂ) 1).applyRay
          (GaussianBeam.from_z_zR 10e-3 1e-3 1 532e-9)) =
      GaussianBeam.theta (GaussianBeam.from_z_zR 10e-3 1e-3 1 532e-9) := by
  set b := GaussianBeam.from_z_zR 10e-3 1e-3 1 532e-9 with hb
  have hqr : q_from_z_zR 10e-3 1e-3 1 = Complex.mk 10e-3 1e-3 := by
    apply Complex.ext <;>
      simp [q_from_z_zR, Complex.div_re, Complex.div_im, Complex.normSq]
  have hu : b.u ≠ 0 := by
    rw [hb]
    simp only [GaussianBeam.from_z_zR, hqr]
    simp only [Complex.ofReal_one, one_mul, ne_eq, one_div, inv_eq_zero]
    intro h
    have := congrArg Complex.im h
    simp at this
    norm_num at this
  have hq : GaussianBeam.q ((Transfer ((100e-3 : ℝ) : ℂ) 1).applyRay b) =
      GaussianBeam.q b + ((100e-3 : ℝ) : ℂ) :=
    transfer_q_add _ b rfl rfl hu
  have hz : GaussianBeam.z ((Transfer ((100e-3 : ℝ) : ℂ) 1).applyRay b) =
      GaussianBeam.z b + 100e-3 := by
    simp [GaussianBeam.z, hq]
  have hzR : GaussianBeam.zR ((Transfer ((100e-3 : ℝ) : ℂ) 1).applyRay b) =
      GaussianBeam.zR b := by
    simp [GaussianBeam.zR, hq]
  have hwvl : ((Transfer ((100e-3 : ℝ) : ℂ) 1).applyRay b).wvl = b.wvl :=
    rfl
  have hn : ((Transfer ((100e-3 : ℝ) : ℂ) 1).applyRay b).n = b.n := rfl
  have hw0 : GaussianBeam.w0 ((Transfer ((100e-3 : ℝ) : ℂ) 1).applyRay b) =
      GaussianBeam.w0 b := by
    simp [GaussianBeam.w0, hzR, hwvl, hn]
  refine ⟨hz, hzR, hw0, ?_⟩
  simp [GaussianBeam.theta, hzR, hw0]
